import Mathlib

/-!
Verification of the CareerCompass job aggregation, ranking and caching engine.

The definitions below are a shallow embedding of the Python sources
`backend/job_services.py`, `backend/job_api_services.py` and
`backend/job_cache.py`.  Python strings are Lean `String`s, floats are
modelled as exact rationals `ℚ`, dictionaries with a fixed field set are
structures, and the pseudo-random generator used by the Dutch job board
stub is modelled as an explicit oracle `Nat → Nat` supplying the random
draws in order.
-/

namespace CareerCompass

/-! ### Python string primitives -/

/-- Whether `needle` is an initial segment of `hay`. -/
def listStarts : List Char → List Char → Bool
  | [], _ => true
  | _ :: _, [] => false
  | a :: ta, b :: tb => a = b && listStarts ta tb

/-- Python's `needle in hay` substring test (on lists of characters). -/
def listSub (needle : List Char) : List Char → Bool
  | [] => needle.isEmpty
  | c :: t => listStarts needle (c :: t) || listSub needle t

/-- Python's `needle in hay` substring test on strings. -/
def strIn (needle hay : String) : Bool :=
  listSub needle.toList hay.toList

/-- Python's `str.lower` (ASCII, as in the repository's data). -/
def pyLower (s : String) : String := String.mk (s.toList.map Char.toLower)

/-- Python's `str.strip` with no arguments. -/
def pyStrip (s : String) : String :=
  String.mk (((s.toList.dropWhile Char.isWhitespace).reverse.dropWhile
    Char.isWhitespace).reverse)

/-- Word characters of the regex class `\w` (ASCII range, as used here). -/
def isWordChar (c : Char) : Bool := c.isAlpha || c.isDigit || c = '_'

/-- Whether a `\b`-boundary holds before the current position, given the
previous character (none at the start of the text). -/
def boundaryBefore : Option Char → Bool
  | none => true
  | some c => !isWordChar c

/-- Whether a `\b`-boundary holds after a matched word, given the rest of
the text. -/
def boundaryAfter : List Char → Bool
  | [] => true
  | c :: _ => !isWordChar c

/-- Search for `\bneedle\b` in `hay`, carrying the previous character. -/
def wbSearchAux (needle : List Char) : Option Char → List Char → Bool
  | prev, hay =>
    (listStarts needle hay && boundaryBefore prev && boundaryAfter (hay.drop needle.length)) ||
      match hay with
      | [] => false
      | c :: t => wbSearchAux needle (some c) t

/-- `re.search(r'\bw\b', hay)` for a literal word `w`. -/
def wbSearch (needle hay : String) : Bool :=
  wbSearchAux needle.toList none hay.toList

/-- Field splitting on a character predicate (empty fields kept, as in
Python's `str.split(sep)`). -/
def splitChars (p : Char → Bool) : List Char → List (List Char)
  | [] => [[]]
  | c :: t =>
    let r := splitChars p t
    if p c then [] :: r
    else
      match r with
      | [] => [[c]]
      | h :: rt => (c :: h) :: rt

/-- Python's `str.split(',')`. -/
def pySplitComma (s : String) : List String :=
  (splitChars (· = ',') s.toList).map String.mk

/-- Python's whitespace `str.split()` (drops empty fields). -/
def pyWords (s : String) : List String :=
  ((splitChars Char.isWhitespace s.toList).map String.mk).filter (· ≠ "")

/-- Python's `sep.join(parts)`. -/
def pyJoin (sep : String) : List String → String
  | [] => ""
  | [x] => x
  | x :: xs => x ++ sep ++ pyJoin sep xs

/-! ### `_extract_country_from_location` (job_services.py lines 42-124) -/

/-- The `country_mapping` dict of `_extract_country_from_location`, in
insertion order (Python dicts preserve it). -/
def countryMapping : List (String × String) :=
  [("netherlands", "Netherlands"), ("holland", "Netherlands"), ("nl", "Netherlands"),
   ("nederland", "Netherlands"), ("dutch", "Netherlands"),
   ("amsterdam", "Netherlands"), ("rotterdam", "Netherlands"), ("utrecht", "Netherlands"),
   ("the hague", "Netherlands"), ("eindhoven", "Netherlands"),
   ("groningen", "Netherlands"), ("tilburg", "Netherlands"), ("almere", "Netherlands"),
   ("breda", "Netherlands"), ("nijmegen", "Netherlands"),
   ("apeldoorn", "Netherlands"), ("haarlem", "Netherlands"), ("arnhem", "Netherlands"),
   ("zaanstad", "Netherlands"), ("haarlemmermeer", "Netherlands"),
   ("germany", "Germany"), ("deutschland", "Germany"), ("de", "Germany"),
   ("berlin", "Germany"), ("munich", "Germany"), ("hamburg", "Germany"),
   ("cologne", "Germany"), ("frankfurt", "Germany"),
   ("united kingdom", "United Kingdom"), ("uk", "United Kingdom"),
   ("britain", "United Kingdom"), ("england", "United Kingdom"),
   ("london", "United Kingdom"), ("manchester", "United Kingdom"),
   ("birmingham", "United Kingdom"),
   ("france", "France"), ("french", "France"), ("fr", "France"),
   ("paris", "France"), ("lyon", "France"), ("marseille", "France"),
   ("belgium", "Belgium"), ("brussels", "Belgium"), ("antwerp", "Belgium"),
   ("switzerland", "Switzerland"), ("zurich", "Switzerland"), ("geneva", "Switzerland"),
   ("austria", "Austria"), ("vienna", "Austria"),
   ("sweden", "Sweden"), ("stockholm", "Sweden"),
   ("norway", "Norway"), ("oslo", "Norway"),
   ("denmark", "Denmark"), ("copenhagen", "Denmark"),
   ("finland", "Finland"), ("helsinki", "Finland"),
   ("italy", "Italy"), ("rome", "Italy"), ("milan", "Italy"),
   ("spain", "Spain"), ("madrid", "Spain"), ("barcelona", "Spain"),
   ("united states", "United States"), ("usa", "United States"),
   ("us", "United States"), ("america", "United States"),
   ("canada", "Canada"),
   ("australia", "Australia"), ("singapore", "Singapore"), ("india", "India"),
   ("japan", "Japan"), ("china", "China")]

/-- The words of the three `netherlands_patterns` regexes, each matched
with `\b` word boundaries. -/
def netherlandsPatternWords : List String :=
  ["netherlands", "holland", "nl", "dutch",
   "amsterdam", "rotterdam", "utrecht", "the hague", "eindhoven",
   "groningen", "tilburg", "almere", "breda", "nijmegen"]

/-- First value of `countryMapping` whose key is a substring of `loc`. -/
def firstSubstringMatch (loc : String) : List (String × String) → String
  | [] => ""
  | (k, v) :: rest => if strIn k loc then v else firstSubstringMatch loc rest

/-- First value of `countryMapping` whose key equals `part`. -/
def firstEqMatch (part : String) : List (String × String) → String
  | [] => ""
  | (k, v) :: rest => if k = part then v else firstEqMatch part rest

/-- `_extract_country_from_location` (job_services.py lines 42-124). -/
def extractCountryFromLocation (location : String) : String :=
  if location = "" then ""
  else
    let locationLower := pyStrip (pyLower location)
    if netherlandsPatternWords.any (fun w => wbSearch w locationLower) then "Netherlands"
    else
      let m := firstSubstringMatch locationLower countryMapping
      if m ≠ "" then m
      else if strIn "," location then
        let parts := (pySplitComma location).map pyStrip
        if parts.length ≥ 2 then
          let countryPart := pyLower (parts.getLast!)
          firstEqMatch countryPart countryMapping
        else ""
      else ""

/-! ### The JobPosting dictionary

Python job dicts carry a fixed field set; fields that a raw posting does
not carry are read with `.get(..., default)`, which the structure defaults
reproduce. Floats are exact rationals. -/

structure Job where
  id : String := ""
  title : String := ""
  company : String := ""
  location : String := ""
  country : String := ""
  salary : String := ""
  description : String := ""
  required_skills : List String := []
  experience_level : String := ""
  job_type : String := ""
  remote : Bool := false
  source : String := ""
  postedDate : String := ""
  daysAgo : Nat := 0
  applyUrl : String := ""
  company_logo : String := ""
  match_score : ℚ := 0
  is_real_job : Bool := false
  is_dutch_job : Bool := false
  relevance_score : ℚ := 0
  location_priority : ℚ := 0
  job_title_score : ℚ := 0
  experience_match_score : ℚ := 0
  skills_match_score : ℚ := 0
  combined_score : ℚ := 0
  deriving Repr, DecidableEq

/-! ### A small backtracking matcher for the two `re.sub` patterns

`re.sub` replaces every leftmost, greedily matched, non-overlapping
occurrence. A matcher step maps the remaining text to the list of possible
remainders after the pattern element, highest-priority (greediest) first;
sequencing is flat-mapping, which preserves priority order. -/

/-- Remainders after `\+?` (greedy: consuming the plus is preferred). -/
def reOptPlus : List Char → List (List Char)
  | c :: t => if c = '+' then [t, c :: t] else [c :: t]
  | [] => [[]]

/-- Remainders after `[-.\s]?` (greedy). -/
def reOptSep : List Char → List (List Char)
  | c :: t => if c = '-' || c = '.' || c.isWhitespace then [t, c :: t] else [c :: t]
  | [] => [[]]

/-- Remainders after `\d{lo,hi}` (greedy: more digits first). -/
def reDigits (lo hi : Nat) (cs : List Char) : List (List Char) :=
  let run := (cs.takeWhile (·.isDigit)).length
  let maxk := min hi run
  if maxk < lo then []
  else (List.range (maxk - lo + 1)).map (fun i => cs.drop (maxk - i))

/-- Remainders after `\S+` (greedy: longest run of non-space first). -/
def reNonspacePlus (cs : List Char) : List (List Char) :=
  let run := (cs.takeWhile (fun c => !c.isWhitespace)).length
  (List.range run).map (fun i => cs.drop (run - i))

/-- Remainder after a literal character. -/
def reLit (ch : Char) : List Char → List (List Char)
  | c :: t => if c = ch then [t] else []
  | [] => []

/-- Sequence two matcher steps (priority order is preserved). -/
def reSeq (f g : List Char → List (List Char)) (cs : List Char) : List (List Char) :=
  (f cs).flatMap g

/-- Match `\+?\d{1,3}[-.\s]?\d{3,4}[-.\s]?\d{3,4}[-.\s]?\d{3,4}` at the
head of the text; returns the remainder after the preferred match. -/
def phoneMatch (cs : List Char) : Option (List Char) :=
  (reSeq reOptPlus (reSeq (reDigits 1 3) (reSeq reOptSep (reSeq (reDigits 3 4)
    (reSeq reOptSep (reSeq (reDigits 3 4) (reSeq reOptSep (reDigits 3 4))))))) cs).head?

/-- Match `\S+@\S+` at the head of the text. -/
def emailMatch (cs : List Char) : Option (List Char) :=
  (reSeq reNonspacePlus (reSeq (reLit '@') reNonspacePlus) cs).head?

/-- Match the alternation `certified|certification` at the head. -/
def certMatch (cs : List Char) : Option (List Char) :=
  if listStarts "certified".toList cs then some (cs.drop 9)
  else if listStarts "certification".toList cs then some (cs.drop 13)
  else none

/-- Case-insensitive variant (for the `re.IGNORECASE` use site). -/
def certMatchCI (cs : List Char) : Option (List Char) :=
  certMatch (cs.map Char.toLower)
    |>.map (fun rest => cs.drop (cs.length - rest.length))

/-- `re.sub(pattern, '', text)`: scan left to right, deleting each
leftmost match and continuing after it. `fuel` bounds the recursion. -/
def reSubScan (matchAt : List Char → Option (List Char)) : Nat → List Char → List Char
  | 0, cs => cs
  | fuel + 1, cs =>
    match matchAt cs with
    | some rest =>
      if rest.length < cs.length then reSubScan matchAt fuel rest
      else match cs with
        | [] => []
        | c :: t => c :: reSubScan matchAt fuel t
    | none =>
      match cs with
      | [] => []
      | c :: t => c :: reSubScan matchAt fuel t

/-- `re.sub(pattern, '', s)` as a string transformer. -/
def pySub (matchAt : List Char → Option (List Char)) (s : String) : String :=
  String.mk (reSubScan matchAt (s.toList.length + 1) s.toList)

/-! ### Relevance scorers (job_services.py lines 206-659) -/

/-- Value of the first `(\d+)` group in a string, 0 when absent
(`re.search(r'(\d+)', s)` followed by `int`). -/
def firstNat (s : String) : Nat :=
  go s.toList
where
  digitsToNat (cs : List Char) : Nat :=
    cs.foldl (fun n c => n * 10 + (c.toNat - '0'.toNat)) 0
  go : List Char → Nat
    | [] => 0
    | c :: t => if c.isDigit then digitsToNat ((c :: t).takeWhile (·.isDigit)) else go t

/-- `_calculate_job_relevance_score` (job_services.py lines 206-294). -/
def calculate_job_relevance_score (job : Job) (user_skills user_jobs : List String)
    (user_experience : String) : ℚ :=
  let job_skills := job.required_skills
  let job_description := pyLower job.description
  let skillsPart : ℚ :=
    if user_skills ≠ [] then
      let skill_matches : Nat := user_skills.foldl (fun acc skill =>
        let skill_lower := pyLower skill
        if job_skills.any (fun req => strIn skill_lower (pyLower req)) then acc + 2
        else if strIn skill_lower job_description then acc + 1
        else acc) 0
      min 40 (((skill_matches : ℚ) / (user_skills.length : ℚ)) * 40)
    else 0
  let job_title := pyLower job.title
  let titlePart : ℚ :=
    if user_jobs ≠ [] then
      let title_score : ℚ := user_jobs.foldl (fun acc user_job =>
        if user_job ≠ "" then
          let user_job_words := pyWords (pyLower user_job)
          let job_title_words := pyWords job_title
          if strIn (pyLower user_job) job_title then acc + 15
          else
            let word_matches : Nat := (user_job_words.filter (fun w =>
              job_title_words.contains w && w.toList.length > 2)).length
            acc + min 10 ((word_matches : ℚ) * 3)
        else acc) 0
      min 30 title_score
    else 0
  let job_level := pyLower job.experience_level
  let experiencePart : ℚ :=
    if user_experience ≠ "" then
      let experience_years := firstNat user_experience
      let user_level : List String :=
        if experience_years ≥ 10 then ["senior", "lead", "principal", "staff"]
        else if experience_years ≥ 5 then ["senior", "mid", "intermediate"]
        else if experience_years ≥ 2 then ["mid", "intermediate", "junior"]
        else ["junior", "entry", "graduate"]
      if user_level.any (fun level => strIn level job_level) then 20
      else if strIn "senior" job_level && experience_years ≥ 3 then 15
      else if strIn "junior" job_level && experience_years ≤ 5 then 15
      else 10
    else 0
  let qualityPart : ℚ :=
    (if ["senior", "lead", "principal", "architect", "manager", "director"].any
        (fun ind => strIn ind job_title) then 5 else 0) +
    (if ["tech", "data", "software", "digital", "innovation"].any
        (fun ind => strIn ind (pyLower job.company)) then 5 else 0)
  let score := skillsPart + titlePart + experiencePart + qualityPart
  ((min 100 ⌊score⌋ : ℤ) : ℚ)

def data_engineering_keywords : List String :=
  ["data engineer", "data engineering", "data pipeline", "etl", "data architect",
   "data architecture", "big data", "data platform"]

def software_engineering_keywords : List String :=
  ["software engineer", "software developer", "backend engineer", "frontend engineer",
   "full stack", "web developer"]

def senior_keywords : List String :=
  ["senior", "lead", "principal", "staff", "architect", "manager", "director", "head of"]

/-- The cleaning of a candidate title inside
`_calculate_job_title_relevance` (lines 471-475): strip the `❖` marker,
trim, lowercase, delete phone numbers, e-mail addresses and
certified/certification words, then trim again. -/
def cleanUserJob (user_job : String) : String :=
  let s0 := String.mk (user_job.toList.filter (· ≠ '❖'))
  let s1 := pyLower (pyStrip s0)
  let s2 := pySub phoneMatch s1
  let s3 := pySub emailMatch s2
  pyStrip (pySub certMatch s3)

/-- The amount one candidate title adds to `total_score` inside
`_calculate_job_title_relevance` (lines 467-526); skipped titles add 0. -/
def titleRelContribution (job_title_lower user_job : String) : ℚ :=
  if user_job = "" then 0
  else
    let user_job_clean := cleanUserJob user_job
    if user_job_clean.toList.length < 3 then 0
    else
      let user_is_data := data_engineering_keywords.any (fun kw => strIn kw user_job_clean)
      let job_is_data := data_engineering_keywords.any (fun kw => strIn kw job_title_lower)
      let user_is_sw := software_engineering_keywords.any (fun kw => strIn kw user_job_clean)
      let job_is_sw := software_engineering_keywords.any (fun kw => strIn kw job_title_lower)
      let rolePart : ℚ :=
        if user_is_data && job_is_data then 80
        else if user_is_sw && job_is_sw then 70
        else if user_is_data && job_is_sw then 20
        else if user_is_sw && job_is_data then 25
        else 0
      if strIn user_job_clean job_title_lower || strIn job_title_lower user_job_clean then
        rolePart + 30
      else
        let user_words := (pyWords user_job_clean).filter (fun w => w.toList.length > 2)
        let job_words := (pyWords job_title_lower).filter (fun w => w.toList.length > 2)
        let word_matches : Nat := user_words.foldl (fun wm uw =>
          job_words.foldl (fun wm2 jw =>
            if uw = jw then wm2 + 3
            else if strIn uw jw || strIn jw uw then wm2 + 1
            else wm2) wm) 0
        let wordPart : ℚ :=
          if user_words ≠ [] then
            min 20 (((word_matches : ℚ) / (user_words.length : ℚ)) * 20)
          else 0
        let user_is_senior := senior_keywords.any (fun kw => strIn kw user_job_clean)
        let job_is_senior := senior_keywords.any (fun kw => strIn kw job_title_lower)
        let seniorPart : ℚ :=
          if user_is_senior && job_is_senior then 15
          else if !user_is_senior && !job_is_senior then 5
          else 0
        rolePart + wordPart + seniorPart

/-- The loop body of `_calculate_job_title_relevance` for one candidate
title. -/
def titleRelStep (job_title_lower : String) (acc : ℚ) (user_job : String) : ℚ :=
  acc + titleRelContribution job_title_lower user_job

/-- `_calculate_job_title_relevance` (job_services.py lines 450-528). -/
def calculate_job_title_relevance (job_title : String) (user_jobs : List String) : ℚ :=
  if user_jobs = [] || job_title = "" then 0
  else min 100 (user_jobs.foldl (titleRelStep (pyLower job_title)) 0)

/-- `_calculate_experience_match` (job_services.py lines 530-583). -/
def calculate_experience_match (job_experience_level user_experience : String) : ℚ :=
  if user_experience = "" then 50
  else
    let experience_years := firstNat user_experience
    let job_level_lower := pyLower job_experience_level
    let bracket : List String × ℚ :=
      if experience_years ≥ 15 then
        (["principal", "staff", "director", "vp", "senior", "lead"], 100)
      else if experience_years ≥ 10 then (["senior", "lead", "principal", "staff"], 95)
      else if experience_years ≥ 7 then (["senior", "lead", "mid", "intermediate"], 90)
      else if experience_years ≥ 5 then (["senior", "mid", "intermediate"], 85)
      else if experience_years ≥ 3 then (["mid", "intermediate", "senior"], 80)
      else if experience_years ≥ 1 then (["junior", "mid", "intermediate", "entry"], 75)
      else (["entry", "junior", "graduate", "intern"], 70)
    if bracket.1.any (fun level => strIn level job_level_lower) then bracket.2
    else if experience_years ≥ 8 &&
        ["senior", "lead"].any (fun kw => strIn kw job_level_lower) then 85
    else if experience_years ≥ 3 &&
        ["mid", "intermediate"].any (fun kw => strIn kw job_level_lower) then 80
    else if experience_years ≤ 2 &&
        ["junior", "entry"].any (fun kw => strIn kw job_level_lower) then 75
    else 60

def data_engineering_skills : List String :=
  ["python", "sql", "spark", "kafka", "airflow", "snowflake", "aws", "azure", "gcp",
   "etl", "data pipeline", "big data", "hadoop", "hive", "cassandra", "elasticsearch",
   "mongodb", "postgresql", "mysql", "redshift", "databricks", "dbt", "terraform",
   "docker", "kubernetes"]

def architecture_skills : List String :=
  ["microservices", "system design", "distributed systems", "cloud architecture",
   "solution architect", "data architecture", "api design", "scalability", "performance"]

def critical_data_skills : List String :=
  ["python", "sql", "spark", "kafka", "aws", "azure", "airflow", "snowflake"]

/-- The `skill_score = max(skill_score, c)` accumulation over the
posting's required-skill list (lines 616-624). -/
def foldMaxIf (p : String → Bool) (c : ℚ) (l : List String) : ℚ :=
  l.foldl (fun s req => if p req then max s c else s) 0

/-- The `skill_score` one candidate skill earns inside
`_calculate_skills_match` (lines 608-647); skipped short skills earn 0. -/
def skillScoreOf (job : Job) (skill : String) : ℚ :=
  let job_description := pyLower job.description
  let job_title := pyLower job.title
  let skill_lower := pyStrip (pyLower skill)
  if skill_lower.toList.length < 2 then 0
  else
    let isData := data_engineering_skills.any (fun de => strIn de skill_lower)
    let isArch := architecture_skills.any (fun a => strIn a skill_lower)
    let s1 : ℚ := foldMaxIf
      (fun req => strIn skill_lower (pyLower req) || strIn (pyLower req) skill_lower)
      (if isData then 15 else if isArch then 12 else 8) job.required_skills
    let s2 : ℚ := if strIn skill_lower job_title then
        max s1 (if isData then 12 else 6) else s1
    let s3 : ℚ := if strIn skill_lower job_description then
        max s2 (if isData then 8 else 3) else s2
    if critical_data_skills.any (fun c => strIn c skill_lower) then s3 * 1.5 else s3

/-- The loop body of `_calculate_skills_match` for one candidate skill;
the accumulator is `(total_score, skill_matches)`. A skill shorter than
two characters is skipped entirely (its score is 0 and it is not counted
as a match, exactly the `continue` of line 611). -/
def skillsMatchStep (job : Job) (acc : ℚ × Nat) (skill : String) : ℚ × Nat :=
  if (pyStrip (pyLower skill)).toList.length < 2 then acc
  else
    let skill_score := skillScoreOf job skill
    (acc.1 + skill_score, if skill_score > 0 then acc.2 + 1 else acc.2)

/-- `_calculate_skills_match` (job_services.py lines 585-659). -/
def calculate_skills_match (job : Job) (user_skills : List String) : ℚ :=
  if user_skills = [] then 0
  else
    let acc := user_skills.foldl (skillsMatchStep job) ((0 : ℚ), (0 : Nat))
    let base_score := (acc.1 / (user_skills.length : ℚ)) * 8
    let bonus := ((acc.2 : ℚ) / (user_skills.length : ℚ)) * 30
    min 100 (base_score + bonus)

/-! ### Location priority and combined ranking (job_services.py 296-448) -/

def european_countries_rank : List String :=
  ["Germany", "Austria", "Switzerland", "Netherlands", "Belgium", "United Kingdom",
   "Sweden", "Norway", "Denmark", "Finland", "France", "Spain", "Italy", "Ireland",
   "Poland", "Czech Republic", "Portugal"]

def english_speaking_rank : List String :=
  ["United States", "United Kingdom", "Canada", "Australia", "Ireland", "Singapore",
   "New Zealand"]

def tech_hubs_rank : List String :=
  ["United States", "United Kingdom", "Germany", "Netherlands", "Canada", "Singapore",
   "UAE", "Australia", "Switzerland", "Sweden", "Denmark", "Norway"]

/-- `_get_location_priority_score` (job_services.py lines 296-362). -/
def get_location_priority_score (job_location job_country user_country : String)
    (is_remote : Bool) : ℚ :=
  if user_country = "" then
    if is_remote || strIn "remote" (pyLower job_location) then 100
    else if ["United States", "United Kingdom", "Germany", "Netherlands", "Canada",
        "Singapore", "Australia"].contains job_country then 75
    else 60
  else if job_country = user_country then 120
  else if is_remote || strIn "remote" (pyLower job_location) then 100
  else if european_countries_rank.contains user_country &&
      european_countries_rank.contains job_country then
    if ["Netherlands", "Germany", "Belgium"].contains user_country &&
        ["Netherlands", "Germany", "Belgium"].contains job_country then 90
    else if ["Sweden", "Norway", "Denmark", "Finland"].contains user_country &&
        ["Sweden", "Norway", "Denmark", "Finland"].contains job_country then 90
    else 85
  else if english_speaking_rank.contains user_country &&
      english_speaking_rank.contains job_country then 85
  else if tech_hubs_rank.contains job_country then 75
  else if english_speaking_rank.contains job_country then 70
  else if european_countries_rank.contains user_country &&
      european_countries_rank.contains job_country then 70
  else 50

/-- The per-job score attachment step of
`_prioritize_jobs_by_relevance_and_location` (lines 373-429): computes the
sub-scores and the bucketed combined score and stores them on the job. -/
def score_job (user_skills user_jobs : List String) (user_experience user_country : String)
    (job : Job) : Job :=
  let relevance := calculate_job_relevance_score job user_skills user_jobs user_experience
  let is_remote := job.remote || strIn "remote" (pyLower job.location)
  let location_priority :=
    get_location_priority_score job.location job.country user_country is_remote
  let job_title_score := calculate_job_title_relevance job.title user_jobs
  let experience_match_score := calculate_experience_match job.experience_level user_experience
  let skills_match_score := calculate_skills_match job user_skills
  let combined :=
    if user_country ≠ "" && job.country = user_country then
      location_priority * 0.5 + job_title_score * 0.2 + skills_match_score * 0.2 +
        experience_match_score * 0.1 + 40
    else if is_remote then
      location_priority * 0.4 + job_title_score * 0.25 + skills_match_score * 0.25 +
        experience_match_score * 0.1 + 20
    else
      location_priority * 0.25 + job_title_score * 0.35 + skills_match_score * 0.25 +
        experience_match_score * 0.15
  { job with
    relevance_score := relevance
    location_priority := location_priority
    job_title_score := job_title_score
    experience_match_score := experience_match_score
    skills_match_score := skills_match_score
    combined_score := combined
    match_score := relevance }

/-- The five-component descending sort key of the final `jobs.sort`
(lines 432-438), as a lexicographic value. -/
def sortKey (j : Job) : Lex (ℚ × Lex (ℚ × Lex (ℚ × Lex (ℚ × ℚ)))) :=
  toLex (j.combined_score, toLex (j.location_priority, toLex (j.job_title_score,
    toLex (j.skills_match_score, j.experience_match_score))))

/-- `sort(key=..., reverse=True)` comparison: `a` may precede `b` iff the
key of `b` is lexicographically at most the key of `a`; a stable sort with
this total preorder is the stable descending sort Python performs. -/
def jobSortRel (a b : Job) : Prop := sortKey b ≤ sortKey a

instance : DecidableRel jobSortRel := fun a b =>
  inferInstanceAs (Decidable (sortKey b ≤ sortKey a))

instance : IsTotal Job jobSortRel := ⟨fun a b => le_total (sortKey b) (sortKey a)⟩

instance : IsTrans Job jobSortRel := ⟨fun _ _ _ hab hbc => le_trans hbc hab⟩

/-- `_prioritize_jobs_by_relevance_and_location` (lines 364-448). -/
def prioritize_jobs_by_relevance_and_location (jobs : List Job)
    (user_skills user_jobs : List String) (user_experience user_country : String) :
    List Job :=
  List.insertionSort jobSortRel
    (jobs.map (score_job user_skills user_jobs user_experience user_country))

/-- Comparison of the `match_score`-only descending sorts. -/
def msRel (a b : Job) : Prop := b.match_score ≤ a.match_score

instance : DecidableRel msRel := fun a b =>
  inferInstanceAs (Decidable (b.match_score ≤ a.match_score))

instance : IsTotal Job msRel := ⟨fun a b => le_total b.match_score a.match_score⟩

instance : IsTrans Job msRel := ⟨fun _ _ _ hab hbc => le_trans hbc hab⟩

/-- The `match_score`-only descending sort of the no-country branch
(line 883) and of `search_all_apis` (line 428). -/
def sortByMatchScore (jobs : List Job) : List Job :=
  List.insertionSort msRel jobs

/-! ### The merged-result deduplication and post-filter of
`get_real_job_recommendations` (job_services.py lines 819-896) -/

/-- The deduplication key of line 828: `(title.lower(), company.lower())`
— lowercased but not trimmed. -/
def realKey (j : Job) : String × String := (pyLower j.title, pyLower j.company)

/-- The duplicate-removal loop of lines 823-834: the seen-key set holds
`(title.lower(), company.lower())` pairs (no trimming); a job is appended
only on first key occurrence and when both title and company are
non-empty. -/
def realDedupAux : List (String × String) → List Job → List Job
  | _, [] => []
  | seen, j :: rest =>
    let key := realKey j
    if seen.contains key then realDedupAux seen rest
    else if j.title ≠ "" && j.company ≠ "" then j :: realDedupAux (key :: seen) rest
    else realDedupAux (key :: seen) rest

def realDedup (jobs : List Job) : List Job := realDedupAux [] jobs

/-- `user_is_data_professional` (lines 838-841). -/
def user_is_data_professional (last_two_jobs : List String) : Bool :=
  ["data engineer", "data architect", "data scientist", "data analyst", "data platform"].any
    (fun kw => strIn kw (pyLower (pyJoin " " last_two_jobs)))

/-- The per-job keep decision of the profile-aware post-filter
(lines 843-872). -/
def keepJob (isDataPro : Bool) (j : Job) : Bool :=
  let t := pyLower j.title
  if isDataPro then
    ["data engineer", "data architect", "data scientist", "data analyst",
     "data platform", "data pipeline", "analytics engineer", "ml engineer",
     "machine learning", "big data", "etl", "data warehouse"].any (fun kw => strIn kw t) ||
    (["solution architect", "cloud architect", "platform engineer",
      "devops engineer", "infrastructure engineer"].any (fun kw => strIn kw t) &&
     ["senior", "lead", "principal"].any (fun kw => strIn kw t))
  else
    ["engineer", "developer", "architect", "analyst", "scientist"].any (fun kw => strIn kw t)

/-- `user_country = _extract_country_from_location(location) if location
else ""` (Python's falsy test on an optional string). -/
def userCountryOf : Option String → String
  | some l => if l ≠ "" then extractCountryFromLocation l else ""
  | none => ""

/-- The post-merge part of `get_real_job_recommendations`
(lines 819-896): given the merged source results, deduplicate, apply the
profile-aware filter, rank, and return the top 15. -/
def realJobsPipeline (all_real_jobs : List Job) (skills : List String)
    (experience : String) (last_two_jobs : List String) (location : Option String) :
    List Job :=
  if all_real_jobs.isEmpty then []
  else
    let unique_jobs := realDedup all_real_jobs
    let filtered_jobs :=
      unique_jobs.filter (keepJob (user_is_data_professional last_two_jobs))
    let user_country := userCountryOf location
    let ranked :=
      if user_country ≠ "" && !filtered_jobs.isEmpty then
        prioritize_jobs_by_relevance_and_location filtered_jobs skills last_two_jobs
          experience user_country
      else sortByMatchScore filtered_jobs
    ranked.take 15

/-! ### `get_personalized_job_recommendations` (job_services.py 948-1120) -/

/-- The duplicate-removal loop of lines 1077-1084 (keys are
`f"{title.lower()}_{company.lower()}"` strings, no trimming, no validity
check). -/
def persDedupAux : List String → List Job → List Job
  | _, [] => []
  | seen, j :: rest =>
    let key := pyLower j.title ++ "_" ++ pyLower j.company
    if seen.contains key then persDedupAux seen rest
    else j :: persDedupAux (key :: seen) rest

def persDedup (jobs : List Job) : List Job := persDedupAux [] jobs

/-- `netherlands_indicators` of `_prioritize_jobs_by_location`
(lines 142-153, duplicates as in the source list). -/
def netherlands_indicators : List String :=
  ["netherlands", "holland", "nederland", "nl",
   "amsterdam", "rotterdam", "utrecht", "the hague", "den haag", "eindhoven",
   "groningen", "tilburg", "almere", "breda", "nijmegen", "apeldoorn",
   "haarlem", "arnhem", "zaanstad", "haarlemmermeer", "veldhoven",
   "noord-holland", "zuid-holland", "noord-brabant", "zuid-brabant",
   "gelderland", "overijssel", "limburg", "friesland", "drenthe",
   "flevoland", "zeeland", "utrecht", "groningen"]

/-- `european_countries` of `_prioritize_jobs_by_location` (a Python set;
only membership is used, so iteration order is irrelevant). -/
def european_countries_loc : List String :=
  ["Germany", "United Kingdom", "France", "Belgium", "Switzerland", "Austria",
   "Sweden", "Norway", "Denmark", "Finland", "Italy", "Spain", "Portugal"]

/-- The bucket a job falls in inside `_prioritize_jobs_by_location`
(lines 160-193): 1 = Netherlands/local, 2 = European, 3 = global. -/
def locBucket (user_country : String) (j : Job) : Nat :=
  let job_location := pyLower j.location
  let job_country := pyLower j.country
  let is_netherlands_job :=
    user_country = "Netherlands" &&
      netherlands_indicators.any (fun ind => strIn ind job_location || strIn ind job_country)
  if is_netherlands_job then 1
  else if user_country = "Netherlands" &&
      european_countries_loc.any (fun c =>
        strIn (pyLower c) job_location || strIn (pyLower c) job_country) then 2
  else if user_country ≠ "" && user_country ≠ "Netherlands" &&
      (strIn (pyLower user_country) job_location ||
       strIn (pyLower user_country) job_country) then 1
  else 3

/-- `_prioritize_jobs_by_location` (job_services.py lines 126-204). -/
def prioritize_jobs_by_location (jobs : List Job) (user_country : String) : List Job :=
  if jobs.isEmpty then jobs
  else
    jobs.filter (fun j => locBucket user_country j = 1) ++
    jobs.filter (fun j => locBucket user_country j = 2) ++
    jobs.filter (fun j => locBucket user_country j = 3)

/-- `validate_job_posting` (job_api_services.py lines 449-471). -/
def validate_job_posting (j : Job) : Bool :=
  j.title ≠ "" && j.company ≠ "" && j.applyUrl ≠ "" &&
  !(["make money", "work from home", "easy money", "no experience"].any
      (fun term => strIn term (pyLower j.title))) &&
  !((pyLower j.company).toList.length < 2 ||
    ["test", "example", "sample"].contains (pyLower j.company))

/-- The post-fetch part of `get_personalized_job_recommendations`
(lines 1072-1116): deduplicate, bucket by location, keep the first 15 and
validate them. -/
def personalizedPipeline (all_jobs : List Job) (location : Option String) : List Job :=
  let user_country := userCountryOf location
  if all_jobs.isEmpty then []
  else
    let unique_jobs := persDedup all_jobs
    let prioritized_jobs := prioritize_jobs_by_location unique_jobs user_country
    (prioritized_jobs.take 15).filter validate_job_posting

/-! ### `NetherlandsJobAPI` (job_api_services.py lines 490-777)

The Dutch job-board client does not contact any job board: it fabricates
postings locally (`_generate_dutch_jobs`, whose own comment reads
"Generate mock jobs from Dutch job boards since we can't scrape
directly"). Calls to `random.randint`/`random.choice`/`random.sample` are
modelled by an explicit oracle `pick : Nat → Nat` addressed by structured
draw indices; wall-clock-dependent `postedDate` is modelled as the empty
string. -/

/-- `random.randint(a, b)` under the oracle value `x`. -/
def randintO (x a b : Nat) : Nat := a + x % (b - a + 1)

/-- `random.choice(l)` under the oracle value `x`. -/
def choiceO (x : Nat) (l : List String) : String := l.getD (x % l.length) ""

/-- `random.sample(l, k)` under the oracle value `x` (an oracle-driven
selection; only the shape matters to the claims). -/
def sampleO (x : Nat) (l : List String) (k : Nat) : List String :=
  (List.range k).map (fun t => l.getD ((x + t) % l.length) "")

/-- Thousand-separated decimal rendering used by `f"€{n:,}"`. -/
def commaFmt (n : Nat) : String :=
  String.mk ((commaGroup 0 (toString n).toList.reverse).reverse)
where
  commaGroup : Nat → List Char → List Char
    | _, [] => []
    | k, c :: t =>
      if k ≠ 0 && k % 3 = 0 then ',' :: c :: commaGroup (k + 1) t
      else c :: commaGroup (k + 1) t

/-- The first six (all enabled) entries of `self.job_boards`, in insertion
order: key, display name, base URL. -/
def dutchJobBoards : List (String × String × String) :=
  [("indeed_nl", "Indeed Netherlands", "https://nl.indeed.com"),
   ("jobbird", "Jobbird", "https://www.jobbird.com"),
   ("monsterboard", "Monsterboard.nl", "https://www.monsterboard.nl"),
   ("nationale_vacaturebank", "Nationale Vacaturebank", "https://www.nationalevacaturebank.nl"),
   ("werk_nl", "Werk.nl", "https://www.werk.nl"),
   ("intermediar", "Intermediar.nl", "https://www.intermediair.nl")]

def dutchTechCompanies : List String :=
  ["Booking.com", "Adyen", "TomTom", "Philips", "ASML", "ING Bank",
   "ABN AMRO", "Rabobank", "KPN", "Ziggo", "Coolblue", "bol.com",
   "Exact", "Unit4", "Mendix", "Elastic", "MongoDB Netherlands"]

def dutchConsultingCompanies : List String :=
  ["Deloitte Netherlands", "PwC Netherlands", "KPMG Netherlands",
   "EY Netherlands", "Accenture Netherlands", "Capgemini Netherlands",
   "Atos Netherlands", "CGI Netherlands"]

def dutchFinanceCompanies : List String :=
  ["ING", "ABN AMRO", "Rabobank", "ASR Nederland", "Aegon",
   "NN Group", "NIBC Bank", "Van Lanschot Kempen"]

def dutchCities : List String :=
  ["Amsterdam", "Rotterdam", "The Hague", "Utrecht", "Eindhoven",
   "Tilburg", "Groningen", "Almere", "Breda", "Nijmegen"]

/-- `job_titles` selection by query (lines 592-617). -/
def dutchJobTitles (query_lower : String) : List String :=
  if strIn "data engineer" query_lower || strIn "data" query_lower then
    ["Senior Data Engineer", "Data Engineer", "Lead Data Engineer",
     "Data Platform Engineer", "Big Data Engineer", "Data Pipeline Engineer",
     "Data Architect", "Senior Data Architect", "Principal Data Engineer",
     "Data Infrastructure Engineer", "Analytics Engineer"]
  else if strIn "software engineer" query_lower || strIn "developer" query_lower then
    ["Senior Software Engineer", "Software Engineer", "Full Stack Developer",
     "Backend Developer", "Frontend Developer", "Java Developer",
     "Python Developer", "React Developer", "DevOps Engineer"]
  else if strIn "architect" query_lower then
    ["Solution Architect", "Software Architect", "Data Architect",
     "Cloud Architect", "Enterprise Architect", "Technical Architect"]
  else
    ["Software Engineer", "Data Engineer", "DevOps Engineer",
     "Full Stack Developer", "Backend Developer", "Solution Architect"]

def dutchBenefits : List String :=
  ["Competitive salary with holiday allowance (8%)", "25+ vacation days per year",
   "Flexible working arrangements", "Professional development budget",
   "Pension scheme", "Travel allowance or NS Business Card",
   "Health insurance contribution", "Work from home options"]

/-- `_generate_dutch_job_description` (lines 690-728). -/
def generate_dutch_job_description (job_title company query : String) (x : Nat) : String :=
  let _ := query
  let job_title_lower := pyLower job_title
  let base :=
    if strIn "data" job_title_lower then
      "We are looking for a talented Data Engineer to join our team at " ++ company ++
        ". You will be responsible for designing and implementing data pipelines, " ++
        "working with big data technologies, and ensuring data quality and reliability. " ++
        "Experience with cloud platforms (AWS/Azure/GCP), Python, SQL, and data " ++
        "processing frameworks is essential."
    else if strIn "software" job_title_lower || strIn "developer" job_title_lower then
      "Join " ++ company ++ " as a Software Engineer and help build innovative " ++
        "solutions. You will work on developing scalable applications, collaborating " ++
        "with cross-functional teams, and contributing to our technical architecture. " ++
        "Strong programming skills in Java, Python, or JavaScript are required."
    else if strIn "architect" job_title_lower then
      company ++ " is seeking an experienced Architect to lead our technical strategy " ++
        "and design. You will be responsible for defining system architecture, guiding " ++
        "development teams, and ensuring scalability and performance. Deep technical " ++
        "expertise and leadership experience are essential."
    else
      "Exciting opportunity at " ++ company ++ " to work on challenging projects and " ++
        "grow your career. We offer a collaborative environment, competitive " ++
        "compensation, and excellent benefits. Join our team and make an impact!"
  base ++ "\n\nWhat we offer: " ++ pyJoin ", " (sampleO x dutchBenefits 4)

/-- `_generate_relevant_skills` (lines 730-766). -/
def generate_relevant_skills (job_title query : String) (x : Nat) : List String :=
  let job_title_lower := pyLower job_title
  let query_lower := pyLower query
  let skills :=
    if strIn "data" job_title_lower || strIn "data" query_lower then
      ["Python", "SQL", "Apache Spark", "Kafka", "Airflow", "AWS", "Azure",
       "Docker", "Kubernetes", "Snowflake", "dbt", "Terraform", "Git"]
    else if strIn "devops" job_title_lower || strIn "devops" query_lower then
      ["Docker", "Kubernetes", "AWS", "Azure", "Terraform", "Ansible",
       "Jenkins", "Git", "CI/CD", "Monitoring", "Linux", "Python"]
    else if strIn "architect" job_title_lower then
      ["System Design", "Cloud Architecture", "Microservices", "AWS", "Azure",
       "Kubernetes", "DevOps", "API Design", "Security", "Scalability"]
    else
      ["Java", "Python", "JavaScript", "React", "Spring Boot", "Docker",
       "Kubernetes", "Git", "CI/CD", "REST APIs", "Microservices", "AWS"]
  sampleO x skills (randintO (x + 1) 5 (min 8 skills.length))

/-- `_determine_experience_level` (lines 768-777). -/
def determine_experience_level (job_title : String) : String :=
  let t := pyLower job_title
  if ["senior", "lead", "principal"].any (fun l => strIn l t) then "Senior"
  else if ["junior", "graduate", "entry"].any (fun l => strIn l t) then "Entry Level"
  else "Mid Level"

/-- Index scheme for the oracle draws of board `b`, job `i`, slot `s`. -/
def drawIdx (b i s : Nat) : Nat := (b * 8 + i) * 16 + s

/-- One fabricated posting (the job-dict literal of lines 660-680). -/
def mkDutchJob (pick : Nat → Nat) (query : String) (b i : Nat)
    (boardKey boardName baseUrl : String) (companies : List String) : Job :=
  let query_lower := pyLower query
  let job_title := choiceO (pick (drawIdx b i 0)) (dutchJobTitles query_lower)
  let company := choiceO (pick (drawIdx b i 1)) companies
  let city := choiceO (pick (drawIdx b i 2)) dutchCities
  let tl := pyLower job_title
  let salary_min :=
    if strIn "senior" tl || strIn "lead" tl || strIn "principal" tl then
      randintO (pick (drawIdx b i 3)) 70000 85000
    else if strIn "architect" tl then randintO (pick (drawIdx b i 3)) 80000 95000
    else randintO (pick (drawIdx b i 3)) 50000 65000
  let salary_max :=
    if strIn "senior" tl || strIn "lead" tl || strIn "principal" tl then
      randintO (pick (drawIdx b i 4)) 90000 120000
    else if strIn "architect" tl then randintO (pick (drawIdx b i 4)) 100000 130000
    else randintO (pick (drawIdx b i 4)) 70000 85000
  { id := "nl_" ++ boardKey ++ "_" ++ toString i ++ "_" ++
      toString (randintO (pick (drawIdx b i 5)) 1000 9999)
    title := job_title
    company := company
    location := city ++ ", Netherlands"
    country := "Netherlands"
    salary := "€" ++ commaFmt salary_min ++ " - €" ++ commaFmt salary_max
    description := generate_dutch_job_description job_title company query
      (pick (drawIdx b i 6))
    required_skills := generate_relevant_skills job_title query (pick (drawIdx b i 7))
    experience_level := determine_experience_level job_title
    job_type := "Full-time"
    remote := choiceO (pick (drawIdx b i 9)) ["True", "False", "False"] = "True"
    source := boardName
    postedDate := ""
    daysAgo := randintO (pick (drawIdx b i 10)) 1 14
    applyUrl := baseUrl ++ "/job/" ++ toString (randintO (pick (drawIdx b i 11)) 100000 999999)
    company_logo := "https://logo.clearbit.com/" ++
      String.mk (((pyLower company).toList.filter (· ≠ ' ')).filter (· ≠ '.')) ++ ".com"
    match_score := (randintO (pick (drawIdx b i 12)) 75 95 : Nat)
    is_real_job := true
    is_dutch_job := true }

/-- `_generate_dutch_jobs` (lines 560-688): for each of the first six
boards, fabricate `randint(2,3)` postings. -/
def generate_dutch_jobs (query location : String) (pick : Nat → Nat) : List Job :=
  let _ := location
  let query_lower := pyLower query
  let companies :=
    if strIn "data" query_lower || strIn "engineer" query_lower then
      dutchTechCompanies ++ dutchFinanceCompanies
    else if strIn "consultant" query_lower then dutchConsultingCompanies
    else dutchTechCompanies
  (List.range dutchJobBoards.length).flatMap (fun b =>
    match dutchJobBoards.get? b with
    | none => []
    | some (boardKey, boardName, baseUrl) =>
      let n := randintO (pick (drawIdx b 7 15)) 2 3
      (List.range n).map (fun i => mkDutchJob pick query b i boardKey boardName baseUrl
        companies))

/-! ### `JobAggregator.search_all_apis` (job_api_services.py 377-446)

Network calls are externalized: the per-call responses of the real
external sources (JSearch, Adzuna, RemoteOK) are inputs. JSearch is only
queried when its API key is configured; Adzuna always runs (its missing
credentials fall back to truthy demo strings); RemoteOK always runs; the
Dutch board stub runs whenever the country hint is the Netherlands. -/

structure ExternalResults where
  jsearchAvailable : Bool := false
  jsearch : List Job := []
  adzuna : List Job := []
  remoteok : List Job := []

/-- `JobAggregator._remove_duplicates` (lines 430-446): keys are trimmed
lowercased `(title, company)`; a job is kept when its key is unseen and
not `('','')`; jobs with the `('','')` key are always kept. -/
def aggDedupAux : List (String × String) → List Job → List Job
  | _, [] => []
  | seen, j :: rest =>
    let key := (pyStrip (pyLower j.title), pyStrip (pyLower j.company))
    if !seen.contains key && key ≠ ("", "") then j :: aggDedupAux (key :: seen) rest
    else aggDedupAux seen rest

def remove_duplicates (jobs : List Job) : List Job := aggDedupAux [] jobs

/-- `JobAggregator.search_all_apis` (lines 388-428). -/
def search_all_apis (query location country : String) (ext : ExternalResults)
    (pick : Nat → Nat) : List Job :=
  let nlJobs :=
    if country ≠ "" && ["netherlands", "holland", "nl"].contains (pyLower country) then
      generate_dutch_jobs query location pick
    else []
  let all_jobs := nlJobs ++ (if ext.jsearchAvailable then ext.jsearch else []) ++
    ext.adzuna ++ ext.remoteok
  sortByMatchScore (remove_duplicates all_jobs)

/-! ### Search-query derivation of `get_real_job_recommendations`
(job_services.py lines 734-790) -/

/-- Title cleaning of lines 741-746 (no lowercasing; the
certified/certification removal is case-insensitive here). -/
def cleanTitleQuery (job_title : String) : String :=
  let c0 := pyStrip (String.mk (job_title.toList.filter (· ≠ '❖')))
  let c1 := pySub phoneMatch c0
  let c2 := pySub emailMatch c1
  pyStrip (pySub certMatchCI c2)

/-- Lines 737-788: derive the list of search queries from titles and
skills, with data-engineering queries moved to the front and profile-based
fallbacks. -/
def buildSearchQueries (skills last_two_jobs : List String) : List String :=
  let fromTitles := last_two_jobs.foldl (fun acc jt =>
    if jt ≠ "" && (pyStrip jt).toList.length > 2 then
      let clean := cleanTitleQuery jt
      if clean ≠ "" && clean.toList.length > 5 then
        if ["data engineer", "data architect", "data platform", "data pipeline"].any
            (fun kw => strIn kw (pyLower clean)) then clean :: acc
        else acc ++ [clean]
      else acc
    else acc) []
  let data_skills := (skills.take 10).foldl (fun acc skill =>
    let sc := pyStrip skill
    if sc.toList.length > 2 &&
        !(["certified", "certification"].any (fun c => strIn c (pyLower sc))) then
      if ["python", "sql", "spark", "kafka", "airflow", "snowflake", "aws", "azure",
          "data"].any (fun d => strIn d (pyLower sc)) then sc :: acc
      else acc ++ [sc]
    else acc) []
  let withSkillQueries :=
    if data_skills ≠ [] then
      if data_skills.length ≥ 3 then
        fromTitles ++ ["Data Engineer " ++ pyJoin " " (data_skills.take 3),
          "Data Architect " ++ pyJoin " " (data_skills.take 2)]
      else fromTitles ++ ["Data Engineer " ++ pyJoin " " data_skills]
    else fromTitles
  if withSkillQueries ≠ [] then withSkillQueries
  else
    let user_skills_lower := skills.map pyLower
    if user_skills_lower.any (fun s => strIn "data" s) then
      if ["architect", "architecture", "solution"].any
          (fun x => user_skills_lower.contains x) then
        ["Data Architect", "Solution Architect Data", "Data Platform Architect"]
      else ["Data Engineer", "Senior Data Engineer", "Data Pipeline Engineer"]
    else if ["software", "developer", "programming"].any
        (fun x => user_skills_lower.contains x) then
      ["Software Engineer", "Backend Engineer", "Full Stack Engineer"]
    else ["Software Developer", "Engineer"]

/-- `get_real_job_recommendations` without cache interaction (the
cache-miss path of lines 661-896): the direct RemoteOK fetch and the
external API responses are inputs; the first three derived queries are
fanned out through `search_all_apis` and the merged results go through
`realJobsPipeline`. -/
def get_real_job_recommendations_model (skills : List String) (experience : String)
    (last_two_jobs : List String) (location : Option String) (remoteok_jobs : List Job)
    (ext : ExternalResults) (pick : Nat → Nat) : List Job :=
  let user_country := userCountryOf location
  let queries := (buildSearchQueries skills last_two_jobs).take 3
  let aggregator_jobs := queries.flatMap (fun q =>
    search_all_apis q (location.getD "") user_country ext pick)
  realJobsPipeline (remoteok_jobs ++ aggregator_jobs) skills experience last_two_jobs
    location

/-! ### `JobCache` (job_cache.py lines 14-156)

`_generate_cache_key` serializes the normalized profile with
`json.dumps(..., sort_keys=True)` and hashes it with MD5. The MD5 hex
digest is a fixed deterministic function of the serialized string, so two
profiles receive the same cache key exactly when their serialized strings
are equal; the embedding therefore uses the serialized string itself as
the key. Time is an explicit `now` argument (Python's `time.time()`). -/

/-- One hex digit. -/
def hexDigit (n : Nat) : Char :=
  "0123456789abcdef".toList.getD (n % 16) '0'

/-- Four-digit hex rendering of a code unit for `\uXXXX` escapes. -/
def hex4 (n : Nat) : String :=
  String.mk [hexDigit (n / 4096), hexDigit (n / 256), hexDigit (n / 16), hexDigit n]

/-- `json.dumps` escaping of one character (`ensure_ascii=True`). -/
def jsonEscapeChar (c : Char) : String :=
  if c = '"' then "\\\""
  else if c = '\\' then "\\\\"
  else if c = '\n' then "\\n"
  else if c = '\t' then "\\t"
  else if c = '\r' then "\\r"
  else if c.toNat = 8 then "\\b"
  else if c.toNat = 12 then "\\f"
  else if c.toNat < 32 then "\\u" ++ hex4 c.toNat
  else if c.toNat < 127 then String.mk [c]
  else if c.toNat < 65536 then "\\u" ++ hex4 c.toNat
  else
    let v := c.toNat - 65536
    "\\u" ++ hex4 (55296 + v / 1024) ++ "\\u" ++ hex4 (56320 + v % 1024)

/-- A JSON string literal. -/
def jsonStr (s : String) : String :=
  "\"" ++ String.join (s.toList.map jsonEscapeChar) ++ "\""

/-- A JSON array of string literals (default `json.dumps` separators). -/
def jsonStrList (l : List String) : String :=
  "[" ++ pyJoin ", " (l.map jsonStr) ++ "]"

/-- `JobCache._generate_cache_key` (lines 30-43) up to the final MD5:
the `json.dumps(profile_data, sort_keys=True)` string over the normalized
profile (keys in sorted order: experience, last_jobs, location, skills). -/
def generate_cache_key (skills : List String) (experience : String)
    (last_jobs : List String) (location : Option String) : String :=
  let skillsNorm := List.insertionSort (· ≤ ·)
    (skills.map (fun s => pyStrip (pyLower s)))
  let lastJobsNorm := List.insertionSort (· ≤ ·)
    (last_jobs.map (fun j => pyStrip (pyLower j)))
  let expNorm := pyStrip (pyLower experience)
  let locNorm := match location with
    | some l => if l ≠ "" then pyStrip (pyLower l) else ""
    | none => ""
  "\x7b\"experience\": " ++ jsonStr expNorm ++
    ", \"last_jobs\": " ++ jsonStrList lastJobsNorm ++
    ", \"location\": " ++ jsonStr locNorm ++
    ", \"skills\": " ++ jsonStrList skillsNorm ++ "\x7d"

structure CacheEntry where
  jobs : List Job
  cached_at : ℚ
  expires_at : ℚ
  profile_hash : String
  deriving Repr, DecidableEq

structure JobCacheState where
  cache : List (String × CacheEntry) := []
  hits : Nat := 0
  misses : Nat := 0
  sets : Nat := 0
  evictions : Nat := 0
  default_ttl : ℚ := 1800
  deriving Repr

/-- `JobCache._is_expired` (lines 45-47). -/
def is_expired (now : ℚ) (e : CacheEntry) : Bool := now > e.expires_at

/-- `JobCache._cleanup_expired` (lines 49-59): remove every expired entry
and count each removal as an eviction. -/
def cleanup_expired (now : ℚ) (s : JobCacheState) : JobCacheState :=
  let expired := s.cache.filter (fun kv => is_expired now kv.2)
  { s with
    cache := s.cache.filter (fun kv => !is_expired now kv.2)
    evictions := s.evictions + expired.length }

/-- `JobCache.get` (lines 61-86): cleanup, then hit / expired-removal /
miss accounting. -/
def jobCacheGet (now : ℚ) (skills : List String) (experience : String)
    (last_jobs : List String) (location : Option String) (s : JobCacheState) :
    Option (List Job) × JobCacheState :=
  let s1 := cleanup_expired now s
  let cache_key := generate_cache_key skills experience last_jobs location
  match s1.cache.find? (fun kv => kv.1 = cache_key) with
  | some kv =>
    if !is_expired now kv.2 then (some kv.2.jobs, { s1 with hits := s1.hits + 1 })
    else
      let s2 := { s1 with
        cache := s1.cache.filter (fun kv2 => kv2.1 ≠ cache_key)
        evictions := s1.evictions + 1 }
      (none, { s2 with misses := s2.misses + 1 })
  | none => (none, { s1 with misses := s1.misses + 1 })

/-- Assignment `d[k] = v` on the association-list model of a Python dict
(replaces in place, else appends). -/
def dictSet {β : Type} (k : String) (v : β) (l : List (String × β)) : List (String × β) :=
  if l.any (fun kv => kv.1 = k) then
    l.map (fun kv => if kv.1 = k then (k, v) else kv)
  else l ++ [(k, v)]

/-- `JobCache.set` (lines 88-108). -/
def jobCacheSet (now : ℚ) (skills : List String) (experience : String)
    (last_jobs : List String) (jobs : List Job) (location : Option String)
    (ttl_minutes : Option ℚ) (s : JobCacheState) : JobCacheState :=
  let cache_key := generate_cache_key skills experience last_jobs location
  let ttl_seconds := (ttl_minutes.getD (s.default_ttl / 60)) * 60
  let entry : CacheEntry :=
    { jobs := jobs, cached_at := now, expires_at := now + ttl_seconds,
      profile_hash := cache_key }
  { s with cache := dictSet cache_key entry s.cache, sets := s.sets + 1 }

/-! ### `UserSessionCache` (job_cache.py lines 158-231) -/

structure ProfileData where
  skills : List String := []
  experience : String := ""
  last_jobs : List String := []
  location : Option String := none
  deriving Repr, DecidableEq

structure UserSessionData where
  jobs : List Job
  profile : ProfileData
  cached_at : ℚ
  expires_at : ℚ
  refresh_count : Nat
  deriving Repr, DecidableEq

structure UserSessionCacheState where
  user_sessions : List (String × UserSessionData) := []
  session_ttl : ℚ := 28800
  deriving Repr

/-- `UserSessionCache.get_user_jobs` (lines 184-199): sweep expired
sessions, then return the user's cached jobs or `none`. -/
def get_user_jobs (now : ℚ) (user_id : String) (s : UserSessionCacheState) :
    Option (List Job) × UserSessionCacheState :=
  let s1 := { s with
    user_sessions := s.user_sessions.filter (fun kv => !(now > kv.2.expires_at)) }
  match s1.user_sessions.find? (fun kv => kv.1 = user_id) with
  | some kv =>
    if !(now > kv.2.expires_at) then (some kv.2.jobs, s1)
    else
      (none, { s1 with
        user_sessions := s1.user_sessions.filter (fun kv2 => kv2.1 ≠ user_id) })
  | none => (none, s1)

/-- `UserSessionCache.set_user_jobs` (lines 201-214): the new session
carries the previous session's `refresh_count` when one exists, else 0. -/
def set_user_jobs (now : ℚ) (user_id : String) (jobs : List Job)
    (profile_data : ProfileData) (s : UserSessionCacheState) : UserSessionCacheState :=
  let prev_rc := ((s.user_sessions.find? (fun kv => kv.1 = user_id)).map
    (fun kv => kv.2.refresh_count)).getD 0
  let session_data : UserSessionData :=
    { jobs := jobs, profile := profile_data, cached_at := now,
      expires_at := now + s.session_ttl, refresh_count := prev_rc }
  { s with user_sessions := dictSet user_id session_data s.user_sessions }

/-- `UserSessionCache.refresh_user_jobs` (lines 225-231): when the user
has a session, its `refresh_count` is incremented and then the whole
session is deleted. -/
def refresh_user_jobs (user_id : String) (s : UserSessionCacheState) :
    UserSessionCacheState :=
  match s.user_sessions.find? (fun kv => kv.1 = user_id) with
  | some _ =>
    let bumped := s.user_sessions.map (fun kv =>
      if kv.1 = user_id then (kv.1, { kv.2 with refresh_count := kv.2.refresh_count + 1 })
      else kv)
    { s with user_sessions := bumped.filter (fun kv => kv.1 ≠ user_id) }
  | none => s

/-! ## Infrastructure lemmas -/

theorem foldl_ge {α : Type} {f : ℚ → α → ℚ} (h : ∀ a x, a ≤ f a x) :
    ∀ (l : List α) (a : ℚ), a ≤ l.foldl f a := by
  intro l
  induction l with
  | nil => intro a; simp
  | cons x t ih => intro a; exact le_trans (h a x) (ih (f a x))

theorem foldMaxIf_nonneg (p : String → Bool) (c : ℚ) (l : List String) :
    0 ≤ foldMaxIf p c l := by
  refine foldl_ge (fun a x => ?_) l 0
  dsimp only
  split_ifs
  · exact le_max_left _ _
  · exact le_rfl

theorem titleRelContribution_nonneg (jtl uj : String) :
    0 ≤ titleRelContribution jtl uj := by
  unfold titleRelContribution
  dsimp only
  split_ifs <;> positivity

/-- The title-match sub-score lies in `[0, 100]`. -/
theorem title_rel_bounds (jt : String) (ujs : List String) :
    0 ≤ calculate_job_title_relevance jt ujs ∧
      calculate_job_title_relevance jt ujs ≤ 100 := by
  unfold calculate_job_title_relevance
  split_ifs with h
  · norm_num
  · refine ⟨le_min (by norm_num) ?_, min_le_left _ _⟩
    refine foldl_ge (fun a x => ?_) ujs 0
    have := titleRelContribution_nonneg (pyLower jt) x
    unfold titleRelStep
    linarith

theorem skillScoreOf_nonneg (job : Job) (skill : String) :
    0 ≤ skillScoreOf job skill := by
  unfold skillScoreOf
  dsimp only
  split_ifs
  all_goals try norm_num
  all_goals try exact foldMaxIf_nonneg _ _ _

/-- The skills-match sub-score lies in `[0, 100]`. -/
theorem skills_match_bounds (job : Job) (us : List String) :
    0 ≤ calculate_skills_match job us ∧ calculate_skills_match job us ≤ 100 := by
  unfold calculate_skills_match
  split_ifs with h
  · norm_num
  · dsimp only
    refine ⟨le_min (by norm_num) ?_, min_le_left _ _⟩
    have hfst : (0:ℚ) ≤ (us.foldl (skillsMatchStep job) ((0:ℚ), (0:Nat))).1 := by
      have step : ∀ (a : ℚ × Nat) (x : String), a.1 ≤ (skillsMatchStep job a x).1 := by
        intro a x
        unfold skillsMatchStep
        dsimp only
        split_ifs
        · exact le_rfl
        all_goals
          show a.1 ≤ a.1 + skillScoreOf job x
        all_goals
          have := skillScoreOf_nonneg job x
        all_goals linarith
      have gen : ∀ (l : List String) (a : ℚ × Nat),
          a.1 ≤ (l.foldl (skillsMatchStep job) a).1 := by
        intro l
        induction l with
        | nil => intro a; exact le_rfl
        | cons x t ih => intro a; exact le_trans (step a x) (ih _)
      simpa using gen us ((0:ℚ), (0:Nat))
    positivity

/-- The experience-match sub-score lies in `[0, 100]`. -/
theorem experience_match_bounds (jl ue : String) :
    0 ≤ calculate_experience_match jl ue ∧ calculate_experience_match jl ue ≤ 100 := by
  unfold calculate_experience_match
  dsimp only
  split_ifs <;> norm_num

/-- A posting in the candidate's own (known) country scores 120. -/
theorem loc_priority_same_country (jl uc : String) (ir : Bool) (huc : uc ≠ "") :
    get_location_priority_score jl uc uc ir = 120 := by
  unfold get_location_priority_score
  rw [if_neg huc, if_pos rfl]

/-- A non-remote posting from any other country scores at most 90 when
the candidate's country is known. -/
theorem loc_priority_other_le (jl jc uc : String) (huc : uc ≠ "") (hjc : jc ≠ uc)
    (hr : strIn "remote" (pyLower jl) = false) :
    get_location_priority_score jl jc uc false ≤ 90 := by
  unfold get_location_priority_score
  rw [if_neg huc, if_neg hjc]
  rw [if_neg (by simp [hr])]
  split_ifs <;> norm_num

/-- A same-country posting's combined score strictly exceeds that of a
non-remote posting from any other country when the three relevance
sub-scores agree. -/
theorem combined_dominance (us uj : List String) (ue uc : String) (j1 j2 : Job)
    (huc : uc ≠ "") (h1c : j1.country = uc) (h2c : j2.country ≠ uc)
    (h2r : (j2.remote || strIn "remote" (pyLower j2.location)) = false)
    (ht : calculate_job_title_relevance j2.title uj = calculate_job_title_relevance j1.title uj)
    (hs : calculate_skills_match j2 us = calculate_skills_match j1 us)
    (he : calculate_experience_match j2.experience_level ue =
      calculate_experience_match j1.experience_level ue) :
    (score_job us uj ue uc j2).combined_score < (score_job us uj ue uc j1).combined_score := by
  have e1 : (score_job us uj ue uc j1).combined_score =
      get_location_priority_score j1.location j1.country uc
          (j1.remote || strIn "remote" (pyLower j1.location)) * 0.5 +
        calculate_job_title_relevance j1.title uj * 0.2 +
        calculate_skills_match j1 us * 0.2 +
        calculate_experience_match j1.experience_level ue * 0.1 + 40 := by
    show (if uc ≠ "" && j1.country = uc then _ else _) = _
    rw [if_pos (by simp [huc, h1c])]
  have e2 : (score_job us uj ue uc j2).combined_score =
      get_location_priority_score j2.location j2.country uc false * 0.25 +
        calculate_job_title_relevance j2.title uj * 0.35 +
        calculate_skills_match j2 us * 0.25 +
        calculate_experience_match j2.experience_level ue * 0.15 := by
    show (if uc ≠ "" && j2.country = uc then _ else _) = _
    rw [if_neg (by simp [h2c]), if_neg (by simp [h2r]), h2r]
  have hlp1 : get_location_priority_score j1.location j1.country uc
      (j1.remote || strIn "remote" (pyLower j1.location)) = 120 := by
    rw [h1c]; exact loc_priority_same_country _ _ _ huc
  have hr2 : strIn "remote" (pyLower j2.location) = false := by
    rcases Bool.or_eq_false_iff.mp h2r with ⟨_, h⟩; exact h
  have hlp2 : get_location_priority_score j2.location j2.country uc false ≤ 90 :=
    loc_priority_other_le _ _ _ huc h2c hr2
  have htb := title_rel_bounds j1.title uj
  have hsb := skills_match_bounds j1 us
  have heb := experience_match_bounds j1.experience_level ue
  rw [e1, e2, ht, hs, he]
  nlinarith [htb.1, htb.2, hsb.1, hsb.2, heb.1, heb.2]

/-! ## Claim theorems -/

/-- C3: for every candidate profile with a non-empty resolved country and
every posting set containing a posting in the candidate's country and a
non-remote posting from another country with identical titleMatch,
skillsMatch and experienceMatch sub-scores, the ranking produced by
`_prioritize_jobs_by_relevance_and_location` places the same-country
posting strictly before the other posting (both appear in the output, and
every position of the same-country posting precedes every position of the
other). -/
theorem C3_same_country_ranks_first (jobs : List Job) (us uj : List String)
    (ue uc : String) (j1 j2 : Job)
    (huc : uc ≠ "") (h1c : j1.country = uc) (h2c : j2.country ≠ uc)
    (h2r : (j2.remote || strIn "remote" (pyLower j2.location)) = false)
    (ht : calculate_job_title_relevance j2.title uj = calculate_job_title_relevance j1.title uj)
    (hs : calculate_skills_match j2 us = calculate_skills_match j1 us)
    (he : calculate_experience_match j2.experience_level ue =
      calculate_experience_match j1.experience_level ue)
    (hm1 : j1 ∈ jobs) (hm2 : j2 ∈ jobs) :
    score_job us uj ue uc j1 ∈ prioritize_jobs_by_relevance_and_location jobs us uj ue uc ∧
    score_job us uj ue uc j2 ∈ prioritize_jobs_by_relevance_and_location jobs us uj ue uc ∧
    ∀ (i k : Fin (prioritize_jobs_by_relevance_and_location jobs us uj ue uc).length),
      (prioritize_jobs_by_relevance_and_location jobs us uj ue uc).get i =
        score_job us uj ue uc j1 →
      (prioritize_jobs_by_relevance_and_location jobs us uj ue uc).get k =
        score_job us uj ue uc j2 → i < k := by
  have hdom := combined_dominance us uj ue uc j1 j2 huc h1c h2c h2r ht hs he
  have hperm : (prioritize_jobs_by_relevance_and_location jobs us uj ue uc).Perm
      (jobs.map (score_job us uj ue uc)) :=
    List.perm_insertionSort jobSortRel _
  have hsorted : List.Sorted jobSortRel
      (prioritize_jobs_by_relevance_and_location jobs us uj ue uc) :=
    List.sorted_insertionSort jobSortRel _
  have hkey : sortKey (score_job us uj ue uc j2) < sortKey (score_job us uj ue uc j1) :=
    (Prod.Lex.lt_iff _ _).mpr (Or.inl hdom)
  refine ⟨hperm.mem_iff.mpr (List.mem_map_of_mem _ hm1),
    hperm.mem_iff.mpr (List.mem_map_of_mem _ hm2), ?_⟩
  intro i k hi hk
  by_contra hik
  rcases (le_of_not_lt hik).eq_or_lt with heq | hlt
  · have hj : score_job us uj ue uc j1 = score_job us uj ue uc j2 := by
      rw [← hi, ← hk, heq]
    have hsk : sortKey (score_job us uj ue uc j2) = sortKey (score_job us uj ue uc j1) := by
      rw [hj]
    exact absurd hkey (by rw [hsk]; exact lt_irrefl _)
  · have hrel := List.pairwise_iff_get.mp hsorted k i hlt
    rw [hi, hk] at hrel
    exact absurd (lt_of_le_of_lt hrel hkey) (lt_irrefl _)

/-- Witness for C3 at a concrete input: an Amsterdam-country candidate, a
Netherlands posting and a United-States posting with identical sub-scores. -/
theorem C3_same_country_ranks_first_witness :
    score_job [] [] "" "Netherlands" { title := "A", country := "Netherlands" } ∈
      prioritize_jobs_by_relevance_and_location
        [{ title := "B", country := "United States" },
         { title := "A", country := "Netherlands" }] [] [] "" "Netherlands" ∧
    score_job [] [] "" "Netherlands" { title := "B", country := "United States" } ∈
      prioritize_jobs_by_relevance_and_location
        [{ title := "B", country := "United States" },
         { title := "A", country := "Netherlands" }] [] [] "" "Netherlands" ∧
    ∀ (i k : Fin (prioritize_jobs_by_relevance_and_location
        [{ title := "B", country := "United States" },
         { title := "A", country := "Netherlands" }] [] [] "" "Netherlands").length),
      (prioritize_jobs_by_relevance_and_location
        [{ title := "B", country := "United States" },
         { title := "A", country := "Netherlands" }] [] [] "" "Netherlands").get i =
        score_job [] [] "" "Netherlands" { title := "A", country := "Netherlands" } →
      (prioritize_jobs_by_relevance_and_location
        [{ title := "B", country := "United States" },
         { title := "A", country := "Netherlands" }] [] [] "" "Netherlands").get k =
        score_job [] [] "" "Netherlands" { title := "B", country := "United States" } →
      i < k :=
  C3_same_country_ranks_first
    [{ title := "B", country := "United States" },
     { title := "A", country := "Netherlands" }] [] [] "" "Netherlands"
    { title := "A", country := "Netherlands" } { title := "B", country := "United States" }
    (by decide) rfl (by decide) (by decide) (by decide) (by decide) (by decide)
    (by decide) (by decide)

/-- C4: for every posting and profile, the combined score attached by the
ranking pass is computed exactly by the bucketed formula: same-country
postings use `location*0.5 + title*0.2 + skills*0.2 + experience*0.1 + 40`,
remote postings use `location*0.4 + title*0.25 + skills*0.25 +
experience*0.1 + 20`, and all others use `location*0.25 + title*0.35 +
skills*0.25 + experience*0.15` with no flat bonus. -/
theorem C4_combined_score_formula (us uj : List String) (ue uc : String) (j : Job) :
    (score_job us uj ue uc j).combined_score =
      (if uc ≠ "" && j.country = uc then
        (score_job us uj ue uc j).location_priority * 0.5 +
          (score_job us uj ue uc j).job_title_score * 0.2 +
          (score_job us uj ue uc j).skills_match_score * 0.2 +
          (score_job us uj ue uc j).experience_match_score * 0.1 + 40
      else if j.remote || strIn "remote" (pyLower j.location) then
        (score_job us uj ue uc j).location_priority * 0.4 +
          (score_job us uj ue uc j).job_title_score * 0.25 +
          (score_job us uj ue uc j).skills_match_score * 0.25 +
          (score_job us uj ue uc j).experience_match_score * 0.1 + 20
      else
        (score_job us uj ue uc j).location_priority * 0.25 +
          (score_job us uj ue uc j).job_title_score * 0.35 +
          (score_job us uj ue uc j).skills_match_score * 0.25 +
          (score_job us uj ue uc j).experience_match_score * 0.15) := rfl

/-- C10: every list produced by the recommendation pipelines holds at most
15 postings: the post-merge pipeline of `get_real_job_recommendations`,
the cache-miss path of `get_real_job_recommendations` as a whole, and the
post-fetch pipeline of `get_personalized_job_recommendations`. -/
theorem C10_at_most_fifteen (all_real_jobs all_jobs remoteok_jobs : List Job)
    (skills last_two_jobs : List String) (experience : String) (location : Option String)
    (ext : ExternalResults) (pick : Nat → Nat) :
    (realJobsPipeline all_real_jobs skills experience last_two_jobs location).length ≤ 15 ∧
    (get_real_job_recommendations_model skills experience last_two_jobs location
      remoteok_jobs ext pick).length ≤ 15 ∧
    (personalizedPipeline all_jobs location).length ≤ 15 := by
  have hreal : ∀ (l : List Job), (realJobsPipeline l skills experience last_two_jobs
      location).length ≤ 15 := by
    intro l
    unfold realJobsPipeline
    split_ifs
    · simp
    · dsimp only
      simp [List.length_take]
  refine ⟨hreal _, ?_, ?_⟩
  · unfold get_real_job_recommendations_model
    exact hreal _
  · unfold personalizedPipeline
    split_ifs
    · simp
    · dsimp only
      exact le_trans (List.length_filter_le _ _) (by simp [List.length_take])

/-- C1 (failing input): a Netherlands-located data-engineering candidate
for whom every external source returns nothing. The pipeline nevertheless
returns a non-empty list, and every posting in it was fabricated by
`NetherlandsJobAPI._generate_dutch_jobs` (all carry `is_dutch_job`),
contradicting the no-placeholder policy and the function's own
"NO MOCK DATA" documentation. -/
theorem C1_fabricated_jobs_on_empty_sources :
    (get_real_job_recommendations_model [] "" ["Senior Data Engineer"] (some "Amsterdam")
      [] { jsearchAvailable := false, jsearch := [], adzuna := [], remoteok := [] }
      (fun _ => 0)) ≠ [] ∧
    (get_real_job_recommendations_model [] "" ["Senior Data Engineer"] (some "Amsterdam")
      [] { jsearchAvailable := false, jsearch := [], adzuna := [], remoteok := [] }
      (fun _ => 0)).all (·.is_dutch_job) = true :=
  ⟨by decide, by decide⟩

/-- C9 (failing input): after `set_user_jobs`, `refresh_user_jobs` and a
second `set_user_jobs` for the same user, the next lookup after the
refresh does miss, but the new session's `refresh_count` is 0 — the
increment performed by `refresh_user_jobs` is lost because the whole
session is deleted, so the statistics are not preserved as claimed. -/
theorem C9_refresh_deletes_refresh_count :
    (get_user_jobs 1 "u1" (refresh_user_jobs "u1"
      (set_user_jobs 0 "u1" [{ title := "T", company := "C" }] {} {}))).1 = none ∧
    ((set_user_jobs 1 "u1" [{ title := "T", company := "C" }] {}
      (refresh_user_jobs "u1" (set_user_jobs 0 "u1" [{ title := "T", company := "C" }] {}
        {}))).user_sessions.find? (fun kv => kv.1 = "u1")).map
      (fun kv => kv.2.refresh_count) = some 0 :=
  ⟨rfl, rfl⟩

/-- C6 (counterexample): a non-empty merged posting list — one "Gardener"
posting, deduplicated to a non-empty list — is turned into an empty result
by the profile-aware post-filter alone for a data-engineering candidate,
so the filter is not restricted to runs that leave a non-empty set. -/
theorem C6_counterexample :
    realJobsPipeline [{ title := "Gardener", company := "Acme" }] [] ""
      ["Data Engineer"] none = [] ∧
    realDedup [{ title := "Gardener", company := "Acme" }] ≠ [] :=
  ⟨by decide, by decide⟩

/-- C6 (amended): the profile-aware post-filter is applied
unconditionally; whenever no deduplicated posting satisfies the keep
predicate, the pipeline returns the empty list even though its input was
non-empty. -/
theorem C6_filter_applied_unconditionally (all_real_jobs : List Job)
    (skills last_two_jobs : List String) (experience : String) (location : Option String)
    (h : ∀ j ∈ realDedup all_real_jobs,
      keepJob (user_is_data_professional last_two_jobs) j = false) :
    realJobsPipeline all_real_jobs skills experience last_two_jobs location = [] := by
  unfold realJobsPipeline
  split_ifs with he
  · rfl
  · dsimp only
    have hfil : (realDedup all_real_jobs).filter
        (keepJob (user_is_data_professional last_two_jobs)) = [] := by
      rw [List.filter_eq_nil_iff]
      intro a ha
      simp [h a ha]
    rw [hfil]
    simp [sortByMatchScore, List.insertionSort]

/-- Witness for C6 at the concrete "Gardener" input. -/
theorem C6_filter_applied_unconditionally_witness :
    realJobsPipeline [{ title := "Gardener", company := "Acme" }] [] ""
      ["Data Engineer"] none = [] :=
  C6_filter_applied_unconditionally [{ title := "Gardener", company := "Acme" }] []
    ["Data Engineer"] "" none (by decide)

/-- C5 (counterexample): "us" occurs in "using" only inside a longer word,
yet the resolver returns United States — alias matching is not restricted
to word boundaries. -/
theorem C5_counterexample :
    extractCountryFromLocation "using" = "United States" := by decide

/-- The alias scan returns a value of the table whenever some key occurs
as a substring; all table values are non-empty. -/
theorem firstSubstringMatch_ne_empty (loc : String) :
    ∀ (table : List (String × String)), (∀ kv ∈ table, kv.2 ≠ "") →
      (∃ kv ∈ table, strIn kv.1 loc = true) → firstSubstringMatch loc table ≠ "" := by
  intro table
  induction table with
  | nil => rintro _ ⟨kv, h, _⟩; cases h
  | cons hd tl ih =>
    rintro hv ⟨kv, hmem, hsub⟩
    unfold firstSubstringMatch
    split_ifs with hhd
    · exact hv hd (List.mem_cons_self _ _)
    · rcases List.mem_cons.mp hmem with heq | htl
      · subst heq; exact absurd hsub (by simp [hhd])
      · exact ih (fun kv h => hv kv (List.mem_cons_of_mem _ h)) ⟨kv, htl, hsub⟩

/-- C5 (amended): the resolver matches country aliases as plain
case-insensitive substrings (word boundaries are only applied in the
Netherlands-priority pre-pass), so every location whose lowercased,
trimmed text contains any alias of the table resolves to a non-empty
country. -/
theorem C5_substring_alias_resolution (location : String)
    (h : ∃ kv ∈ countryMapping, strIn kv.1 (pyStrip (pyLower location)) = true) :
    extractCountryFromLocation location ≠ "" := by
  obtain ⟨kv, hmem, hsub⟩ := h
  have hkeys : ∀ kv ∈ countryMapping, kv.1 ≠ "" := by decide
  have hvals : ∀ kv ∈ countryMapping, kv.2 ≠ "" := by decide
  have hloc : location ≠ "" := by
    intro h0
    subst h0
    have : strIn kv.1 (pyStrip (pyLower "")) = false := by
      have hk := hkeys kv hmem
      rcases kv with ⟨k, v⟩
      rcases k with ⟨kl⟩
      cases kl with
      | nil => exact absurd rfl hk
      | cons c cs => rfl
    rw [this] at hsub
    cases hsub
  have hm : firstSubstringMatch (pyStrip (pyLower location)) countryMapping ≠ "" :=
    firstSubstringMatch_ne_empty _ countryMapping hvals ⟨kv, hmem, hsub⟩
  unfold extractCountryFromLocation
  rw [if_neg hloc]
  dsimp only
  split_ifs
  all_goals first
    | decide
    | assumption

/-- Witness for C5 at the concrete "using" input ("us" is an alias and a
substring of "using"). -/
theorem C5_substring_alias_resolution_witness :
    extractCountryFromLocation "using" ≠ "" :=
  C5_substring_alias_resolution "using" (by decide)

/-- Two permutations of the same string list have the same ascending
sort. -/
theorem insertionSort_perm_eq (l1 l2 : List String) (h : l1.Perm l2) :
    List.insertionSort (· ≤ ·) l1 = List.insertionSort (· ≤ ·) l2 :=
  List.eq_of_perm_of_sorted
    (((List.perm_insertionSort _ l1).trans h).trans (List.perm_insertionSort _ l2).symm)
    (List.sorted_insertionSort _ l1) (List.sorted_insertionSort _ l2)

/-- C7: profiles that differ only in the order of the skill list and/or
the order of the recent-titles list receive the same cache key. -/
theorem C7_cache_key_order_independent (skills1 skills2 last1 last2 : List String)
    (experience : String) (location : Option String)
    (hsk : skills1.Perm skills2) (hlj : last1.Perm last2) :
    generate_cache_key skills1 experience last1 location =
      generate_cache_key skills2 experience last2 location := by
  unfold generate_cache_key
  rw [insertionSort_perm_eq _ _ (hsk.map _), insertionSort_perm_eq _ _ (hlj.map _)]

/-- Witness for C7: two orderings of the same skills and titles. -/
theorem C7_cache_key_order_independent_witness :
    generate_cache_key ["Python", "AWS"] "5 years" ["Data Engineer", "Analyst"]
      (some "Amsterdam") =
    generate_cache_key ["AWS", "Python"] "5 years" ["Analyst", "Data Engineer"]
      (some "Amsterdam") :=
  C7_cache_key_order_independent ["Python", "AWS"] ["AWS", "Python"]
    ["Data Engineer", "Analyst"] ["Analyst", "Data Engineer"] "5 years" (some "Amsterdam")
    (by decide) (by decide)

/-- Every job emitted by the deduplication loop has an unseen key and is
the first element of the input carrying its key. -/
theorem realDedupAux_first_occ :
    ∀ (l : List Job) (seen : List (String × String)) (j : Job),
      j ∈ realDedupAux seen l →
      realKey j ∉ seen ∧
        ∃ l1 l2, l = l1 ++ j :: l2 ∧ ∀ j' ∈ l1, realKey j' ≠ realKey j := by
  intro l
  induction l with
  | nil => intro seen j hj; cases hj
  | cons x t ih =>
    intro seen j hj
    unfold realDedupAux at hj
    dsimp only at hj
    by_cases h1 : seen.contains (realKey x)
    · rw [if_pos h1] at hj
      obtain ⟨hns, l1, l2, heq, hall⟩ := ih seen j hj
      refine ⟨hns, x :: l1, l2, by rw [heq]; rfl, ?_⟩
      intro j' hj'
      rcases List.mem_cons.mp hj' with rfl | hmem
      · intro hkey
        exact hns (by rw [← hkey]; exact List.mem_of_elem_eq_true h1)
      · exact hall j' hmem
    · rw [if_neg h1] at hj
      by_cases h2 : x.title ≠ "" && x.company ≠ ""
      · rw [if_pos h2] at hj
        rcases List.mem_cons.mp hj with rfl | hmem
        · exact ⟨fun hc => h1 (List.elem_eq_true_of_mem hc), [], t, rfl, by simp⟩
        · obtain ⟨hns, l1, l2, heq, hall⟩ := ih _ j hmem
          have hkx : realKey j ≠ realKey x := by
            intro hk
            exact hns (by rw [hk]; exact List.mem_cons_self _ _)
          refine ⟨fun hc => hns (List.mem_cons_of_mem _ hc), x :: l1, l2,
            by rw [heq]; rfl, ?_⟩
          intro j' hj'
          rcases List.mem_cons.mp hj' with rfl | hmem'
          · exact fun hk => hkx hk.symm
          · exact hall j' hmem'
      · rw [if_neg h2] at hj
        obtain ⟨hns, l1, l2, heq, hall⟩ := ih _ j hj
        have hkx : realKey j ≠ realKey x := by
          intro hk
          exact hns (by rw [hk]; exact List.mem_cons_self _ _)
        refine ⟨fun hc => hns (List.mem_cons_of_mem _ hc), x :: l1, l2,
          by rw [heq]; rfl, ?_⟩
        intro j' hj'
        rcases List.mem_cons.mp hj' with rfl | hmem'
        · exact fun hk => hkx hk.symm
        · exact hall j' hmem'

/-- The deduplication loop emits pairwise-distinct keys. -/
theorem realDedupAux_pairwise :
    ∀ (l : List Job) (seen : List (String × String)),
      List.Pairwise (fun a b => realKey a ≠ realKey b) (realDedupAux seen l) := by
  intro l
  induction l with
  | nil => intro seen; exact List.Pairwise.nil
  | cons x t ih =>
    intro seen
    unfold realDedupAux
    dsimp only
    split_ifs with h1 h2
    · exact ih seen
    · refine List.Pairwise.cons ?_ (ih _)
      intro j hj
      have := (realDedupAux_first_occ t _ j hj).1
      intro hk
      exact this (by rw [← hk]; exact List.mem_cons_self _ _)
    · exact ih _

/-- The whole post-merge pipeline preserves pairwise-distinct keys:
filtering is a sublist, ranking is a permutation, truncation is a
sublist. -/
theorem realJobsPipeline_pairwise (all : List Job) (skills last_two_jobs : List String)
    (experience : String) (location : Option String) :
    List.Pairwise (fun a b => realKey a ≠ realKey b)
      (realJobsPipeline all skills experience last_two_jobs location) := by
  have hsymm : ∀ {x y : Job}, realKey x ≠ realKey y → realKey y ≠ realKey x :=
    fun h => h.symm
  unfold realJobsPipeline
  split_ifs with h0
  · exact List.Pairwise.nil
  · dsimp only
    refine List.Pairwise.sublist (List.take_sublist _ _) ?_
    have hded : List.Pairwise (fun a b => realKey a ≠ realKey b) (realDedup all) :=
      realDedupAux_pairwise all []
    have hfil : List.Pairwise (fun a b => realKey a ≠ realKey b)
        ((realDedup all).filter (keepJob (user_is_data_professional last_two_jobs))) :=
      List.Pairwise.sublist (List.filter_sublist _) hded
    split_ifs with h1
    · refine (List.Perm.pairwise_iff hsymm
        (List.perm_insertionSort jobSortRel _)).mpr ?_
      exact List.pairwise_map.mpr hfil
    · exact (List.Perm.pairwise_iff hsymm
        (List.perm_insertionSort msRel _)).mpr hfil

/-- C2 (counterexample): with trimming, the pipeline violates the claimed
invariant — a posting titled "Engineer" and one titled "Engineer "
(trailing blank) at the same company both survive, and their lowercased,
whitespace-trimmed keys coincide. -/
theorem C2_counterexample :
    (realJobsPipeline [{ title := "Engineer", company := "Acme" },
        { title := "Engineer ", company := "Acme" }] [] "" ["Chef"] none).map
      (fun j => (pyStrip (pyLower j.title), pyStrip (pyLower j.company))) =
    [("engineer", "acme"), ("engineer", "acme")] := by decide

/-- C2 (amended): the deduplication key is the lowercased — but not
trimmed — `(title, company)` pair: no two postings of any returned list
share that key, and every posting kept by the deduplication step is the
first occurrence of its key in the merged input. -/
theorem C2_dedup_key_invariant (all : List Job) (skills last_two_jobs : List String)
    (experience : String) (location : Option String) :
    List.Pairwise (fun a b => realKey a ≠ realKey b)
      (realJobsPipeline all skills experience last_two_jobs location) ∧
    ∀ j ∈ realDedup all, ∃ l1 l2, all = l1 ++ j :: l2 ∧
      ∀ j' ∈ l1, realKey j' ≠ realKey j := by
  refine ⟨realJobsPipeline_pairwise all skills last_two_jobs experience location, ?_⟩
  intro j hj
  exact (realDedupAux_first_occ all [] j hj).2

/-- Witness for C2 at a concrete duplicated input: the first "Engineer"
posting is kept and nothing before it shares its key. -/
theorem C2_dedup_key_invariant_witness :
    List.Pairwise (fun a b => realKey a ≠ realKey b)
      (realJobsPipeline [{ title := "Engineer", company := "Acme" },
        { title := "Engineer", company := "Acme Corp" }] [] "" ["Chef"] none) ∧
    ∃ l1 l2, [({ title := "Engineer", company := "Acme" } : Job),
        { title := "Engineer", company := "Acme Corp" }] =
      l1 ++ ({ title := "Engineer", company := "Acme" } : Job) :: l2 ∧
      ∀ j' ∈ l1, realKey j' ≠ realKey ({ title := "Engineer", company := "Acme" } : Job) :=
  ⟨(C2_dedup_key_invariant [{ title := "Engineer", company := "Acme" },
      { title := "Engineer", company := "Acme Corp" }] [] ["Chef"] "" none).1,
    (C2_dedup_key_invariant [{ title := "Engineer", company := "Acme" },
      { title := "Engineer", company := "Acme Corp" }] [] ["Chef"] "" none).2
      { title := "Engineer", company := "Acme" } (by decide)⟩

/-- A cache whose only expired entry is `(k, e)` sweeps exactly that
entry. -/
theorem filter_expired_eq_singleton (now : ℚ) (k : String) (e : CacheEntry) :
    ∀ (l : List (String × CacheEntry)), (k, e) ∈ l → (l.map Prod.fst).Nodup →
      (∀ kv ∈ l, kv.1 ≠ k → is_expired now kv.2 = false) → is_expired now e = true →
      l.filter (fun kv => is_expired now kv.2) = [(k, e)] := by
  intro l
  induction l with
  | nil => intro h; cases h
  | cons x t ih =>
    intro hmem hnd honly hexp
    have hnd' : (t.map Prod.fst).Nodup := (List.nodup_cons.mp (by simpa using hnd)).2
    have hx1 : x.1 ∉ t.map Prod.fst := (List.nodup_cons.mp (by simpa using hnd)).1
    rcases List.mem_cons.mp hmem with rfl | hmt
    · rw [List.filter_cons_of_pos (by simpa using hexp)]
      congr 1
      rw [List.filter_eq_nil_iff]
      intro kv hkv
      have hne : kv.1 ≠ (k, e).1 := by
        intro h
        exact hx1 (h ▸ List.mem_map_of_mem Prod.fst hkv)
      simp [honly kv (List.mem_cons_of_mem _ hkv) hne]
    · have hxk : x.1 ≠ k := by
        intro h
        exact hx1 (h ▸ List.mem_map_of_mem Prod.fst hmt)
      rw [List.filter_cons_of_neg (by simp [honly x (List.mem_cons_self _ _) hxk])]
      exact ih hmt hnd' (fun kv h hne => honly kv (List.mem_cons_of_mem _ h) hne) hexp


/-- C8: a lookup whose key holds an expired entry returns a miss, removes
the entry, and counts it as exactly one eviction; the misses counter grows
by exactly 1 — the same increment a lookup against the cache without that
entry performs, so the expired entry itself is charged to evictions, not
misses. -/
theorem C8_expired_lookup_statistics (s : JobCacheState) (now : ℚ) (skills : List String)
    (experience : String) (last_jobs : List String) (location : Option String)
    (e : CacheEntry)
    (hnodup : (s.cache.map Prod.fst).Nodup)
    (hmem : (generate_cache_key skills experience last_jobs location, e) ∈ s.cache)
    (hexp : now > e.expires_at)
    (honly : ∀ kv ∈ s.cache,
      kv.1 ≠ generate_cache_key skills experience last_jobs location →
      ¬(now > kv.2.expires_at)) :
    (jobCacheGet now skills experience last_jobs location s).1 = none ∧
    (jobCacheGet now skills experience last_jobs location s).2.evictions =
      s.evictions + 1 ∧
    (jobCacheGet now skills experience last_jobs location s).2.misses = s.misses + 1 ∧
    (∀ kv ∈ (jobCacheGet now skills experience last_jobs location s).2.cache,
      kv.1 ≠ generate_cache_key skills experience last_jobs location) ∧
    (jobCacheGet now skills experience last_jobs location
      { s with cache := (s.cache.filter
        (fun kv => kv.1 ≠ generate_cache_key skills experience last_jobs location)) }).2.misses
      = s.misses + 1 := by
  set k := generate_cache_key skills experience last_jobs location with hk
  have honly' : ∀ kv ∈ s.cache, kv.1 ≠ k → is_expired now kv.2 = false := by
    intro kv h hne
    simp [is_expired, honly kv h hne]
  have hexp' : is_expired now e = true := by simp [is_expired, hexp]
  have hsing := filter_expired_eq_singleton now k e s.cache hmem hnodup honly' hexp'
  have hcleanmem : ∀ kv ∈ s.cache.filter (fun kv => !is_expired now kv.2), kv.1 ≠ k := by
    intro kv hkv
    have h1 := List.mem_filter.mp hkv
    intro hne
    have : kv = (k, e) := List.inj_on_of_nodup_map hnodup h1.1 hmem hne
    rw [this] at h1
    simp [hexp'] at h1
  have hfind : (s.cache.filter (fun kv => !is_expired now kv.2)).find?
      (fun kv => kv.1 = k) = none := by
    rw [List.find?_eq_none]
    intro kv hkv
    simp [hcleanmem kv hkv]
  have hres : jobCacheGet now skills experience last_jobs location s =
      (none, { cleanup_expired now s with
        misses := (cleanup_expired now s).misses + 1 }) := by
    unfold jobCacheGet
    dsimp only
    rw [← hk]
    have hcc : (cleanup_expired now s).cache =
      s.cache.filter (fun kv => !is_expired now kv.2) := rfl
    rw [hcc, hfind]
  refine ⟨by rw [hres], ?_, by rw [hres]; rfl, ?_, ?_⟩
  · rw [hres]
    show (cleanup_expired now s).evictions = s.evictions + 1
    unfold cleanup_expired
    dsimp only
    rw [hsing]
    rfl
  · intro kv hkv
    rw [hres] at hkv
    exact hcleanmem kv hkv
  · -- comparative absent-key state
    have hfil : (s.cache.filter (fun kv => kv.1 ≠ k)).filter
        (fun kv => !is_expired now kv.2) = s.cache.filter (fun kv => kv.1 ≠ k) := by
      rw [List.filter_eq_self]
      intro kv hkv
      have h1 := List.mem_filter.mp hkv
      simp [honly' kv h1.1 (by simpa using h1.2)]
    have hfind2 : ((s.cache.filter (fun kv => kv.1 ≠ k)).filter
        (fun kv => !is_expired now kv.2)).find? (fun kv => kv.1 = k) = none := by
      rw [List.find?_eq_none]
      intro kv hkv
      rw [hfil] at hkv
      have := (List.mem_filter.mp hkv).2
      simpa using this
    unfold jobCacheGet
    dsimp only
    rw [← hk]
    have hc : (cleanup_expired now { s with cache := (s.cache.filter
        (fun kv => kv.1 ≠ k)) }).cache =
        (s.cache.filter (fun kv => kv.1 ≠ k)).filter (fun kv => !is_expired now kv.2) := rfl
    rw [hc, hfind2]
    rfl


/-- Witness for C8: a one-entry cache whose entry expired at time 5,
looked up at time 10. -/
theorem C8_expired_lookup_statistics_witness :
    (jobCacheGet 10 ["python"] "5 years" ["engineer"] none
      { cache := [(generate_cache_key ["python"] "5 years" ["engineer"] none,
          { jobs := [], cached_at := 0, expires_at := 5, profile_hash := "" })] }).1 =
      none ∧
    (jobCacheGet 10 ["python"] "5 years" ["engineer"] none
      { cache := [(generate_cache_key ["python"] "5 years" ["engineer"] none,
          { jobs := [], cached_at := 0, expires_at := 5, profile_hash := "" })] }).2.evictions =
      ({ cache := [(generate_cache_key ["python"] "5 years" ["engineer"] none,
          { jobs := [], cached_at := 0, expires_at := 5, profile_hash := "" })] } :
        JobCacheState).evictions + 1 ∧
    (jobCacheGet 10 ["python"] "5 years" ["engineer"] none
      { cache := [(generate_cache_key ["python"] "5 years" ["engineer"] none,
          { jobs := [], cached_at := 0, expires_at := 5, profile_hash := "" })] }).2.misses =
      ({ cache := [(generate_cache_key ["python"] "5 years" ["engineer"] none,
          { jobs := [], cached_at := 0, expires_at := 5, profile_hash := "" })] } :
        JobCacheState).misses + 1 ∧
    (∀ kv ∈ (jobCacheGet 10 ["python"] "5 years" ["engineer"] none
      { cache := [(generate_cache_key ["python"] "5 years" ["engineer"] none,
          { jobs := [], cached_at := 0, expires_at := 5, profile_hash := "" })] }).2.cache,
      kv.1 ≠ generate_cache_key ["python"] "5 years" ["engineer"] none) ∧
    (jobCacheGet 10 ["python"] "5 years" ["engineer"] none
      { ({ cache := [(generate_cache_key ["python"] "5 years" ["engineer"] none,
          { jobs := [], cached_at := 0, expires_at := 5, profile_hash := "" })] } :
        JobCacheState) with
        cache := (({ cache := [(generate_cache_key ["python"] "5 years" ["engineer"] none,
          { jobs := [], cached_at := 0, expires_at := 5, profile_hash := "" })] } :
            JobCacheState).cache.filter
          (fun kv => kv.1 ≠ generate_cache_key ["python"] "5 years" ["engineer"] none)) }).2.misses
      = ({ cache := [(generate_cache_key ["python"] "5 years" ["engineer"] none,
          { jobs := [], cached_at := 0, expires_at := 5, profile_hash := "" })] } :
        JobCacheState).misses + 1 :=
  C8_expired_lookup_statistics
    { cache := [(generate_cache_key ["python"] "5 years" ["engineer"] none,
        { jobs := [], cached_at := 0, expires_at := 5, profile_hash := "" })] }
    10 ["python"] "5 years" ["engineer"] none
    { jobs := [], cached_at := 0, expires_at := 5, profile_hash := "" }
    (by decide) (by decide) (by decide) (by decide)

end CareerCompass

